import Mathlib

/-!
Verification of the authentication and authorization core of the
`todo-api` repository (an Express/Mongoose todo backend).

The embedding models:
- `Authorize.authorizeUser` / `Authorize.authorizeTodo`
  (from `src/middlewares/authorize.ts`);
- `AuthController.signUp`, `signIn`, `googleSignIn`, `signOut`, `sync`,
  `refreshToken` (from the controller source);
- the utilities `CustomValidator`, `generateUserTokens`,
  `handleRefreshToken` and the user-model password hashing, which live in
  modules not present in this copy of the repository and are therefore
  modelled from the specification, as marked on each definition.

JavaScript machine state is made explicit: a `Store` value carries the
persisted users, socials and todos plus a token-minting counter; each
controller operation maps a store and the relevant request data to the
next store and an outcome (a response, a forwarded domain error, or no
response at all).  A thrown `TypeError` from dereferencing a `null`
query result is modelled as the forwarded error kind `typeNull`.
-/

/-- A refresh or access token as produced by the signing primitive.
`username` is the embedded identity claim, `iat` a freshness counter,
`exp` the expiry instant, and `genuine` records whether the signature
verifies (a forged or tampered token has `genuine = false`). -/
structure RTok where
  username : String
  iat : Nat
  exp : Nat
  genuine : Bool
deriving DecidableEq, Repr

/-- Access-token lifetime used when minting. -/
def accessTTL : Nat := 900

/-- Refresh-token lifetime used when minting. -/
def refreshTTL : Nat := 604800

/-- Embeds `jwt.verify`: full verification — fails on a bad signature or on an
expired token, otherwise returns the embedded username claim. -/
def jwtVerify (t : RTok) (now : Nat) : Option String :=
  if t.genuine && decide (now ≤ t.exp) then some t.username else none

/-- Mint an access token for a username at freshness counter `c`. -/
def mkAccess (uname : String) (c : Nat) (now : Nat) : RTok :=
  ⟨uname, c, now + accessTTL, true⟩

/-- Mint a refresh token for a username at freshness counter `c`. -/
def mkRefresh (uname : String) (c : Nat) (now : Nat) : RTok :=
  ⟨uname, c, now + refreshTTL, true⟩

/-- The access/refresh pair returned by the token service. -/
structure TokenPair where
  accessToken : RTok
  refreshToken : RTok
deriving DecidableEq, Repr

/-- A persisted `User` document. -/
structure UserRec where
  uid : Nat
  firstName : String
  lastName : String
  username : String
  email : String
  isUsernameSet : Bool
  isPasswordSet : Bool
  password : Option String
  verified : Bool
  apiKey : String
  refreshTokens : List RTok
  profileImageURL : Option String
deriving DecidableEq, Repr

/-- A persisted `Social` document linking a provider subject id to a user. -/
structure SocialRec where
  name : String
  socialId : String
  userId : Nat
deriving DecidableEq, Repr

/-- A persisted `Todo` document. -/
structure TodoRec where
  id : Nat
  username : String
  name : String
  dueDate : Nat
  completed : Bool
deriving DecidableEq, Repr

/-- The persisted state reachable through the identity store adapter,
plus the counter feeding fresh token ids and user ids. -/
structure Store where
  users : List UserRec
  socials : List SocialRec
  todos : List TodoRec
  tokenCounter : Nat
  nextUid : Nat
deriving DecidableEq, Repr

/-- Embeds `User.findOne({ username })`. -/
def findUserByUsername (s : Store) (uname : String) : Option UserRec :=
  s.users.find? (fun u => u.username == uname)

/-- Embeds `User.findOne({ $or: [{ username: id }, { email: id }] })`. -/
def findUserByUsernameOrEmail (s : Store) (id : String) : Option UserRec :=
  s.users.find? (fun u => u.username == id || u.email == id)

/-- Embeds `User.findOne({ $or: [{ username }, { email }] })` with separate
username and email values, as in `signUp`. -/
def findUserByUsernamePairOrEmail (s : Store) (un em : String) : Option UserRec :=
  s.users.find? (fun u => u.username == un || u.email == em)

/-- Embeds `User.findOne({ email })`. -/
def findUserByEmail (s : Store) (email : String) : Option UserRec :=
  s.users.find? (fun u => u.email == email)

/-- Embeds `Todo.findOne({ _id })`. -/
def findTodoById (s : Store) (tid : Nat) : Option TodoRec :=
  s.todos.find? (fun t => t.id == tid)

/-- Embeds `Social.findOne({ name, socialId })`. -/
def findSocial (s : Store) (nm socialId : String) : Option SocialRec :=
  s.socials.find? (fun so => so.name == nm && so.socialId == socialId)

/-- Embeds `User.updateOne({ username }, { refreshTokens })`. -/
def updateUserRefreshTokens (s : Store) (uname : String) (l : List RTok) : Store :=
  { s with users := s.users.map (fun v =>
      if v.username == uname then { v with refreshTokens := l } else v) }

/-- Append one refresh token to the allowlist of the user with the given
username (a no-op when no such user exists, as with `updateOne`). -/
def pushRefreshToken (s : Store) (uname : String) (t : RTok) : Store :=
  { s with users := s.users.map (fun v =>
      if v.username == uname then
        { v with refreshTokens := v.refreshTokens ++ [t] } else v) }

/-- Modelled from the spec: the user model hashes the password before it
is persisted (the model file with the bcrypt pre-save hook is not part of
this copy); an injective placeholder stands for the bcrypt hash. -/
def hashString (p : String) : String := String.append "bcrypt$" p

/-- Embeds `compareSync(password, storedHash)` over the modelled hash. -/
def compareSync (p : String) (h : Option String) : Bool :=
  match h with
  | some hp => hashString p == hp
  | none => false

/-- The error kinds thrown or forwarded by the controller and guards.
`jwtError` stands for the `JsonWebTokenError`/`TokenExpiredError` family
thrown by `jwt.verify`; `typeNull` for a JavaScript `TypeError` raised by
dereferencing a `null` query result; `googleVerifyError` for a rejected
third-party id-token verification. -/
inductive ErrName where
  | validationError
  | alreadyExistsError
  | notFoundError
  | badRequestError
  | authorizationError
  | refreshTokenError
  | jwtError
  | typeNull
  | googleVerifyError
deriving DecidableEq, Repr

/-- A forwarded error: its kind and its curated message. -/
structure Err where
  name : ErrName
  message : String
deriving DecidableEq, Repr

/-- A JSON scalar appearing in a response payload. -/
inductive JVal where
  | vs (v : String)
  | vb (v : Bool)
deriving DecidableEq, Repr

/-- A successful JSON response: status code, message, the serialized
`user` object as an ordered key/value list when one is sent, the token
pair when one is sent, the todos payload for `sync`, and the names of the
cookies cleared on the transport. -/
structure Resp where
  status : Nat
  message : String
  user : Option (List (String × JVal)) := none
  tokens : Option TokenPair := none
  todos : Option (List TodoRec) := none
  cleared : List String := []
deriving DecidableEq, Repr

/-- The terminal outcome of one controller operation: a sent response, an
error forwarded to the error-handling middleware, or — on the one
unreachable fall-through path of `signUp` — no response at all. -/
inductive Outcome where
  | ok (r : Resp)
  | err (e : Err)
  | noresp
deriving DecidableEq, Repr

/-- The result of a gate middleware: `next()` or `next(err)`. -/
inductive MWResult where
  | next
  | nextErr (e : Err)
deriving DecidableEq, Repr

/-- The request data visible to the authorization gates: the `username`
and `todoId` path parameters and the acting identity resolved from the
attached access token (`req.user`), which `authorizeUser` receives but
never reads. -/
structure AReq where
  paramsUsername : String
  paramsTodoId : Nat
  actingUser : Option String
deriving DecidableEq, Repr

/-- Embeds `Authorize.authorizeUser` from `src/middlewares/authorize.ts`: look
up a user by the path username; absence throws `AuthorizationError`,
which the surrounding `catch` forwards via `next(err)`. -/
def authorizeUser (s : Store) (r : AReq) : MWResult :=
  match findUserByUsername s r.paramsUsername with
  | none => .nextErr ⟨.authorizationError, "You are unauthorized!"⟩
  | some _ => .next

/-- Embeds `Authorize.authorizeTodo` from `src/middlewares/authorize.ts`: load
the todo by id and compare its stored owner username with the path
username.  When no todo is found, `findOne` yields `null` and the access
`foundTodo.username` throws a `TypeError`, which the surrounding `catch`
forwards via `next(err)` — modelled by the `typeNull` error kind. -/
def authorizeTodo (s : Store) (r : AReq) : MWResult :=
  match findTodoById s r.paramsTodoId with
  | none =>
      .nextErr ⟨.typeNull, "Cannot read property username of null"⟩
  | some td =>
      if td.username != r.paramsUsername then
        .nextErr ⟨.authorizationError, "You are not authorized to do this!"⟩
      else
        .next

/-- Modelled from the spec: `CustomValidator.firstName` — the credential
validator module is imported from the utils package, which is not part of
this copy; §4.1 prescribes a non-empty first name. -/
def CustomValidator.firstName (s : String) : Option String :=
  if s.isEmpty then some "First name cannot be empty!" else none

/-- Modelled from the spec: `CustomValidator.username` — §4.1 prescribes
a username format/length check; a minimum length of 6 is assumed. -/
def CustomValidator.username (s : String) : Option String :=
  if s.length < 6 then some "Username must have a minimum length of 6!" else none

/-- Modelled from the spec: `CustomValidator.email` — §4.1 prescribes an
email format check; containing the at sign is assumed. -/
def CustomValidator.email (s : String) : Option String :=
  if s.data.contains '@' then none else some "Email format is invalid!"

/-- Modelled from the spec: `CustomValidator.password` — §4.1 prescribes
a password minimum strength; a minimum length of 6 is assumed. -/
def CustomValidator.password (s : String) : Option String :=
  if s.length < 6 then some "Password must have a minimum length of 6!" else none

/-- Modelled from the spec: `CustomValidator.userIdentifier` — the
sign-in identifier must be present (non-empty). -/
def CustomValidator.userIdentifier (s : String) : Option String :=
  if s.isEmpty then some "User identifier cannot be empty!" else none

/-- The per-field validation failures collected by `signUp`, in the
object-key order of the source (`firstName`, `username`, `email`,
`password`); each entry is a failing field with its message. -/
def signUpValidationMsgs (fn un em pw : String) : List (String × String) :=
  ([("firstName", CustomValidator.firstName fn),
    ("username", CustomValidator.username un),
    ("email", CustomValidator.email em),
    ("password", CustomValidator.password pw)]).filterMap
    (fun kv => kv.2.map (fun m => (kv.1, m)))

/-- The per-field validation failures collected by `signIn`, in the
object-key order of the source (`userIdentifier`, `password`). -/
def signInValidationMsgs (id pw : String) : List (String × String) :=
  ([("userIdentifier", CustomValidator.userIdentifier id),
    ("password", CustomValidator.password pw)]).filterMap
    (fun kv => kv.2.map (fun m => (kv.1, m)))

/-- Modelled from the spec: `createToken('apiKey', { username, email })`
— the signing utility is not part of this copy; the api key is an opaque
signed string over the username/email claims. -/
def createApiKey (uname em : String) : String :=
  String.append "apiKey$" (String.append uname (String.append "$" em))

/-- Modelled from the spec: `generateUserTokens(claims, purpose?)` —
Token Service `issue` (§4.2).  It mints a fresh access/refresh pair over
the identity claims; the `purpose` tag drives the side-channel
bookkeeping only: for a `signUp` session the caller stores the refresh
token in the user document it is about to create, while for the default
sign-in purpose the service itself appends the refresh token to the
allowlist of the user named by the claims. -/
def generateUserTokens (s : Store) (now : Nat) (uname : String)
    (purpose : String) : Store × TokenPair :=
  let act := mkAccess uname s.tokenCounter now
  let rft := mkRefresh uname (s.tokenCounter + 1) now
  let s1 : Store := { s with tokenCounter := s.tokenCounter + 2 }
  if purpose == "signUp" then (s1, ⟨act, rft⟩)
  else (pushRefreshToken s1 uname rft, ⟨act, rft⟩)

/-- Modelled from the spec: `handleRefreshToken(presentedToken)` — Token
Service `rotate` (§4.2), a utility not present in this copy.  It fails
with `RefreshTokenError` when the token fails signature/expiry
verification, when the decoded identity no longer exists, or when the
token is absent from that identity's allowlist; on success it removes
the presented token, appends the newly minted refresh token and returns
the new pair. -/
def handleRefreshToken (s : Store) (now : Nat) (t? : Option RTok) :
    Except Err (Store × TokenPair) :=
  match t? with
  | none => .error ⟨.refreshTokenError, "Refresh token is invalid!"⟩
  | some t =>
    match jwtVerify t now with
    | none => .error ⟨.refreshTokenError, "Refresh token is invalid!"⟩
    | some uname =>
      match findUserByUsername s uname with
      | none => .error ⟨.refreshTokenError, "Refresh token is invalid!"⟩
      | some u =>
        if u.refreshTokens.contains t then
          let act := mkAccess uname s.tokenCounter now
          let rft := mkRefresh uname (s.tokenCounter + 1) now
          let s1 : Store := { s with tokenCounter := s.tokenCounter + 2 }
          let s2 := updateUserRefreshTokens s1 uname
            (u.refreshTokens.filter (fun rt => rt != t) ++ [rft])
          .ok (s2, ⟨act, rft⟩)
        else
          .error ⟨.refreshTokenError, "Refresh token is invalid!"⟩

/-- Embeds `AuthController.refreshToken`: read the refresh token from the
transport carriers in priority order, delegate to `handleRefreshToken`,
map `RefreshTokenError` to an `AuthorizationError`, and on success set
the new cookies and return the new tokens. -/
def refreshTokenOp (s : Store) (now : Nat)
    (signedRft cookieRft bodyRft : Option RTok) : Store × Outcome :=
  match handleRefreshToken s now (signedRft <|> cookieRft <|> bodyRft) with
  | .error e =>
      if e.name == .refreshTokenError then
        (s, .err ⟨.authorizationError, e.message⟩)
      else (s, .err e)
  | .ok (s1, toks) =>
      (s1, .ok { status := 200, message := "Successfully refreshed token!",
                 tokens := some toks })

/-- Embeds `AuthController.signUp`: validate the fields, reject a username or
email collision, otherwise mint tokens, persist the new user with the
refresh token in its allowlist, and answer 201 with the profile
projection and the tokens.  On the source's unreachable fall-through
(a colliding user matching neither field) no response is produced. -/
def signUp (s : Store) (now : Nat) (fn ln un em pw : String) : Store × Outcome :=
  if (signUpValidationMsgs fn un em pw).isEmpty then
    match findUserByUsernamePairOrEmail s un em with
    | some ex =>
        if ex.username == un then
          (s, .err ⟨.alreadyExistsError, "Username is not available."⟩)
        else if ex.email == em then
          (s, .err ⟨.alreadyExistsError, "Email is not available."⟩)
        else (s, .noresp)
    | none =>
        let g := generateUserTokens s now un "signUp"
        let apiKey := createApiKey un em
        let newUser : UserRec :=
          { uid := g.1.nextUid, firstName := fn, lastName := ln,
            username := un, email := em, isUsernameSet := true,
            isPasswordSet := true, password := some (hashString pw),
            verified := false, apiKey := apiKey,
            refreshTokens := [g.2.refreshToken], profileImageURL := none }
        ({ g.1 with users := g.1.users ++ [newUser], nextUid := g.1.nextUid + 1 },
         .ok { status := 201, message := "Successfully signed up!",
               user := some
                 [("firstName", .vs fn), ("lastName", .vs ln),
                  ("isUsernameSet", .vb true), ("username", .vs un),
                  ("email", .vs em), ("isPasswordSet", .vb true),
                  ("verified", .vb false), ("apiKey", .vs apiKey)],
               tokens := some g.2 })
  else
    (s, .err ⟨.validationError, "Failed to sign up, please correct user information!"⟩)

/-- Embeds `AuthController.signIn`: validate, look the user up by
username-or-email, fail `NotFoundError` when absent; otherwise mint the
token pair (which, for the sign-in purpose, already appends the refresh
token to the allowlist) and only then compare the password hash,
answering 200 with profile and tokens on a match and forwarding
`BadRequestError` on a mismatch. -/
def signIn (s : Store) (now : Nat) (id pw : String) : Store × Outcome :=
  if (signInValidationMsgs id pw).isEmpty then
    match findUserByUsernameOrEmail s id with
    | none => (s, .err ⟨.notFoundError, "User not found, please sign up first!"⟩)
    | some u =>
        let g := generateUserTokens s now u.username "signIn"
        if compareSync pw u.password then
          (g.1, .ok { status := 200, message := "Successfully signed in!",
                      user := some
                        [("firstName", .vs u.firstName),
                         ("lastName", .vs u.lastName),
                         ("username", .vs u.username),
                         ("email", .vs u.email),
                         ("apiKey", .vs u.apiKey)],
                      tokens := some g.2 })
        else
          (g.1, .err ⟨.badRequestError, "Wrong username or password!"⟩)
  else
    (s, .err ⟨.validationError, "Failed to sign in, please correct user information!"⟩)

/-- The identity claims of a verified Google id token, as returned by the
external verification service (`verifyIdTokenResponse.getPayload()`). -/
structure GPayload where
  given_name : String
  family_name : String
  sub : String
  email : String
  picture : Option String
deriving DecidableEq, Repr

/-- The `user` object of the 201 Google sign-up response; the
`profileImageURL` key is present only when the payload carried a picture
(an `undefined` value is dropped from the serialized JSON). -/
def googleNewUserJson (p : GPayload) (apiKey : String) : List (String × JVal) :=
  [("firstName", .vs p.given_name), ("lastName", .vs p.family_name),
   ("isUsernameSet", .vb true), ("username", .vs p.sub),
   ("email", .vs p.email), ("isPasswordSet", .vb false),
   ("verified", .vb false), ("apiKey", .vs apiKey)] ++
  (match p.picture with
   | some pic => [("profileImageURL", .vs pic)]
   | none => [])

/-- The `user` object of the 200 Google sign-in response for an existing
user: google-payload name/username/email merged with the stored flags. -/
def googleExistingUserJson (p : GPayload) (ex : UserRec) : List (String × JVal) :=
  [("firstName", .vs p.given_name), ("lastName", .vs p.family_name),
   ("isUsernameSet", .vb ex.isUsernameSet), ("username", .vs p.sub),
   ("email", .vs p.email), ("isPasswordSet", .vb ex.isPasswordSet),
   ("verified", .vb ex.verified), ("apiKey", .vs ex.apiKey)] ++
  (match p.picture with
   | some pic => [("profileImageURL", .vs pic)]
   | none => [])

/-- Embeds `AuthController.googleSignIn`: verify the provider id token (the
external verification is modelled by its result, `none` standing for a
rejected token whose fault is forwarded).  With no user at the verified
email, create the user — username taken from the `sub` claim — plus its
social link and answer 201; otherwise upsert the missing social link,
mint tokens and answer 200. -/
def googleSignIn (s : Store) (now : Nat) (verified : Option GPayload) :
    Store × Outcome :=
  match verified with
  | none => (s, .err ⟨.googleVerifyError, "Invalid Google id token!"⟩)
  | some p =>
    match findUserByEmail s p.email with
    | none =>
        let g := generateUserTokens s now p.sub "signUp"
        let apiKey := createApiKey p.sub p.email
        let newUser : UserRec :=
          { uid := g.1.nextUid, firstName := p.given_name,
            lastName := p.family_name, username := p.sub, email := p.email,
            isUsernameSet := true, isPasswordSet := false, password := none,
            verified := false, apiKey := apiKey,
            refreshTokens := [g.2.refreshToken],
            profileImageURL := p.picture }
        let newSocial : SocialRec :=
          { name := "google", socialId := p.sub, userId := g.1.nextUid }
        ({ g.1 with users := g.1.users ++ [newUser],
                    socials := g.1.socials ++ [newSocial],
                    nextUid := g.1.nextUid + 1 },
         .ok { status := 201, message := "Successfully signed up!",
               user := some (googleNewUserJson p apiKey),
               tokens := some g.2 })
    | some ex =>
        let s1 :=
          match findSocial s "google" p.sub with
          | none => { s with socials := s.socials ++
                        [{ name := "google", socialId := p.sub, userId := ex.uid }] }
          | some _ => s
        let g := generateUserTokens s1 now p.sub "signIn"
        (g.1, .ok { status := 200, message := "Successfully signed in!",
                    user := some (googleExistingUserJson p ex),
                    tokens := some g.2 })

/-- Embeds `AuthController.signOut`: read the refresh token from the transport
carriers in priority order.  With no token present, clear the transport
cookies and answer 200.  With a token present, `jwt.verify` it (a
verification failure — expired or forged token — throws and the fault is
forwarded), look the owner up (a vanished owner makes the
`foundUser.refreshTokens` access throw a `TypeError`), filter the
presented token out of the allowlist, persist it, clear the cookies and
answer 200. -/
def signOut (s : Store) (now : Nat)
    (signedRft cookieRft headerRft bodyRft : Option RTok) : Store × Outcome :=
  match signedRft <|> cookieRft <|> headerRft <|> bodyRft with
  | none =>
      (s, .ok { status := 200, message := "Successfully signed out!",
                cleared := ["rft", "act", "_csrf", "XSRF-TOKEN"] })
  | some t =>
    match jwtVerify t now with
    | none => (s, .err ⟨.jwtError, "jwt expired or malformed"⟩)
    | some uname =>
      match findUserByUsername s uname with
      | none => (s, .err ⟨.typeNull, "Cannot read property refreshTokens of null"⟩)
      | some u =>
          let updated := u.refreshTokens.filter (fun rt => rt != t)
          (updateUserRefreshTokens s uname updated,
           .ok { status := 200, message := "Successfully signed out!",
                 cleared := ["act", "rft", "_csrf", "XSRF-TOKEN"] })

/-- The `user` object of the 200 `sync` response. -/
def syncUserJson (uname : String) (u : UserRec) : List (String × JVal) :=
  [("firstName", .vs u.firstName), ("lastName", .vs u.lastName),
   ("isUsernameSet", .vb u.isUsernameSet), ("username", .vs uname),
   ("email", .vs u.email), ("isPasswordSet", .vb u.isPasswordSet),
   ("verified", .vb u.verified), ("apiKey", .vs u.apiKey)]

/-- Embeds `AuthController.sync`: read the acting identity off the authenticated
request context (`req.user`; an absent context or a vanished user makes
the destructuring throw a `TypeError`), fetch the profile and the
incomplete todos owned by it, and answer 200 with both. -/
def sync (s : Store) (reqUser : Option String) : Store × Outcome :=
  match reqUser with
  | none => (s, .err ⟨.typeNull, "Cannot read property username of undefined"⟩)
  | some uname =>
    match findUserByUsername s uname with
    | none => (s, .err ⟨.typeNull, "Cannot destructure property of null"⟩)
    | some u =>
        let pending := s.todos.filter (fun t => t.username == uname && !t.completed)
        (s, .ok { status := 200, message := "Successfully synced!",
                  user := some (syncUserJson uname u),
                  todos := some pending })

/-- Store well-formedness: every refresh token sitting in some user's
allowlist was minted at an earlier counter value than the store's current
token counter, so a freshly minted token is distinct from every stored
one.  Every store reachable from an empty one through the operations of
this file satisfies it. -/
def WFb (s : Store) : Bool :=
  s.users.all (fun u => u.refreshTokens.all (fun t => t.iat < s.tokenCounter))

/-- The ordered key list of the serialized `user` object of a response
(empty when the response carries no user object). -/
def userKeys (r : Resp) : List String := (r.user.getD []).map Prod.fst

/-- The response's `user` object carries only the fixed profile
projection: every key is among the allowed profile keys, and in
particular neither the stored password hash's key nor the refresh-token
allowlist's key ever appears. -/
def profileKeysOnly (r : Resp) : Prop :=
  userKeys r ⊆
    ["firstName", "lastName", "isUsernameSet", "username", "email",
     "isPasswordSet", "verified", "apiKey", "profileImageURL"] ∧
  "password" ∉ userKeys r ∧ "refreshTokens" ∉ userKeys r

instance (r : Resp) : Decidable (profileKeysOnly r) := by
  unfold profileKeysOnly
  infer_instance

/-! Concrete fixtures used by witnesses and counterexamples. -/

/-- A genuine refresh token held by the fixture user. -/
def aliceTok : RTok := ⟨"aliceuser", 0, 604800, true⟩

/-- A fixture user holding one refresh token. -/
def alice : UserRec :=
  { uid := 0, firstName := "Alice", lastName := "A", username := "aliceuser",
    email := "alice@x.com", isUsernameSet := true, isPasswordSet := true,
    password := some (hashString "password1"), verified := false,
    apiKey := "k", refreshTokens := [aliceTok], profileImageURL := none }

/-- A fixture store holding the one user. -/
def baseStore : Store :=
  { users := [alice], socials := [], todos := [], tokenCounter := 1, nextUid := 1 }

/-- The refresh token minted by rotating `aliceTok` in `baseStore` at 0. -/
def rotatedTok : RTok := ⟨"aliceuser", 2, 604800, true⟩

/-- The pair returned by that rotation. -/
def rotatedPair : TokenPair := ⟨⟨"aliceuser", 1, 900, true⟩, rotatedTok⟩

/-- The store after that rotation: the old token replaced by the new. -/
def rotatedStore : Store :=
  { users := [{ alice with refreshTokens := [rotatedTok] }], socials := [],
    todos := [], tokenCounter := 3, nextUid := 1 }

/-- First user of the cross-collision fixture. -/
def annUser : UserRec :=
  { uid := 1, firstName := "Ann", lastName := "A", username := "aaauser",
    email := "shared@x.com", isUsernameSet := true, isPasswordSet := true,
    password := some (hashString "secret99"), verified := false,
    apiKey := "ka", refreshTokens := [], profileImageURL := none }

/-- Second user of the cross-collision fixture. -/
def bobUser : UserRec :=
  { uid := 2, firstName := "Bob", lastName := "B", username := "bbbuser",
    email := "b@x.com", isUsernameSet := true, isPasswordSet := true,
    password := some (hashString "secret88"), verified := false,
    apiKey := "kb", refreshTokens := [], profileImageURL := none }

/-- A store with two users whose username and email cross-collide with a
fixture sign-up request. -/
def dualStore : Store :=
  { users := [annUser, bobUser],
    socials := [], todos := [], tokenCounter := 0, nextUid := 3 }

/-- Fixture `baseStore` with two todos owned by the fixture user. -/
def todoStore : Store :=
  { baseStore with todos :=
      [⟨1, "aliceuser", "write the report", 5, false⟩,
       ⟨2, "aliceuser", "already done", 3, true⟩] }

/-- A verified Google payload whose email matches no fixture user. -/
def gpayload : GPayload :=
  ⟨"Gname", "Gfam", "gsub1234", "guser@x.com", some "pic.png"⟩

/-- A second token held by the fixture user alongside `aliceTok`. -/
def otherTok : RTok := ⟨"aliceuser", 5, 604800, true⟩

/-- Fixture `baseStore` with the fixture user holding two session tokens. -/
def multiStore : Store :=
  { users := [{ alice with refreshTokens := [aliceTok, otherTok] }],
    socials := [], todos := [], tokenCounter := 6, nextUid := 1 }

/-! Helper lemmas. -/

/-- Finding by username commutes with a map that preserves usernames. -/
theorem find?_username_map (l : List UserRec) (f : UserRec → UserRec)
    (hf : ∀ v, (f v).username = v.username) (q : String) :
    (l.map f).find? (fun v => v.username == q) =
      (l.find? (fun v => v.username == q)).map f := by
  rw [List.find?_map f l]
  have hpf : ((fun v : UserRec => v.username == q) ∘ f) =
      (fun v : UserRec => v.username == q) := by
    funext v
    simp [Function.comp, hf v]
  rw [hpf]

/-- C5: the resource-owner existence gate is insensitive to the acting
identity carried by the request — two requests naming the same path
username get the same verdict whatever their acting identities — and it
lets the request continue exactly when some stored user bears the path's
username. -/
theorem claim5_user_gate_ignores_acting_identity (s : Store) (r1 r2 : AReq)
    (h : r1.paramsUsername = r2.paramsUsername) :
    authorizeUser s r1 = authorizeUser s r2 ∧
    (authorizeUser s r1 = .next ↔
      s.users.any (fun u => u.username == r1.paramsUsername) = true) := by
  constructor
  · unfold authorizeUser findUserByUsername
    rw [h]
  · unfold authorizeUser findUserByUsername
    cases hf : s.users.find? (fun u => u.username == r1.paramsUsername) with
    | none =>
        simp only [MWResult.nextErr.injEq]
        constructor
        · intro hx
          exact absurd hx (by simp)
        · intro hx
          rcases List.any_eq_true.mp hx with ⟨u, hu, hpu⟩
          have : (s.users.find? (fun u => u.username == r1.paramsUsername)).isSome :=
            List.find?_isSome.mpr ⟨u, hu, hpu⟩
          rw [hf] at this
          exact absurd this (by simp)
    | some u =>
        simp only [true_iff]
        have hpu := List.find?_some
          (p := fun v : UserRec => v.username == r1.paramsUsername) hf
        exact List.any_eq_true.mpr ⟨u, List.mem_of_find?_eq_some hf, hpu⟩

/-- C5 witness: in the fixture store the gate passes a request for the
stored username independently of the acting identity. -/
theorem claim5_witness :
    authorizeUser baseStore ⟨"aliceuser", 1, some "mallory"⟩ =
      authorizeUser baseStore ⟨"aliceuser", 1, none⟩ ∧
    (authorizeUser baseStore ⟨"aliceuser", 1, some "mallory"⟩ = .next ↔
      baseStore.users.any (fun u => u.username == "aliceuser") = true) :=
  claim5_user_gate_ignores_acting_identity baseStore
    ⟨"aliceuser", 1, some "mallory"⟩ ⟨"aliceuser", 1, none⟩ rfl

/-- C4 counterexample: in a store with no todos the ownership gate does
not fail with `AuthorizationError` — the `null` dereference makes it
forward a `TypeError` instead. -/
theorem claim4_counterexample :
    authorizeTodo baseStore ⟨"aliceuser", 7, none⟩ =
      .nextErr ⟨.typeNull, "Cannot read property username of null"⟩ ∧
    ErrName.typeNull ≠ ErrName.authorizationError :=
  ⟨rfl, by decide⟩

/-- C4 amended: the ownership gate fails `AuthorizationError` when the
loaded todo's stored owner differs from the path's username; when no
todo with that id exists, the gate instead forwards the `TypeError`
raised by dereferencing the `null` query result — a handled fault, but
not an `AuthorizationError`. -/
theorem claim4_todo_gate (s : Store) (r : AReq) :
    (∀ td, findTodoById s r.paramsTodoId = some td →
      td.username ≠ r.paramsUsername →
      authorizeTodo s r =
        .nextErr ⟨.authorizationError, "You are not authorized to do this!"⟩) ∧
    (findTodoById s r.paramsTodoId = none →
      authorizeTodo s r =
        .nextErr ⟨.typeNull, "Cannot read property username of null"⟩) := by
  constructor
  · intro td h hne
    unfold authorizeTodo
    rw [h]
    simp [hne]
  · intro h
    unfold authorizeTodo
    rw [h]

/-- C4 witness: in the fixture store, a request by another username for
todo 1 is rejected with `AuthorizationError`, and a request for the
missing todo 9 forwards the `TypeError`. -/
theorem claim4_witness :
    authorizeTodo todoStore ⟨"bobuser", 1, none⟩ =
      .nextErr ⟨.authorizationError, "You are not authorized to do this!"⟩ ∧
    authorizeTodo todoStore ⟨"bobuser", 9, none⟩ =
      .nextErr ⟨.typeNull, "Cannot read property username of null"⟩ :=
  ⟨(claim4_todo_gate todoStore ⟨"bobuser", 1, none⟩).1
      ⟨1, "aliceuser", "write the report", 5, false⟩ rfl (by decide),
   (claim4_todo_gate todoStore ⟨"bobuser", 9, none⟩).2 rfl⟩

/-- A token that verifies decodes to its embedded username claim. -/
theorem jwtVerify_eq_some (t : RTok) (now : Nat) (w : String)
    (h : jwtVerify t now = some w) : w = t.username := by
  unfold jwtVerify at h
  split at h
  · exact (Option.some.inj h).symm
  · exact absurd h (by simp)

/-- Inversion of a successful rotation: the presented token verified,
its owner was found holding it, and the resulting store replaces it in
the owner's allowlist by the freshly minted refresh token. -/
theorem handleRefreshToken_ok_inv (s : Store) (now : Nat) (t : RTok)
    (s' : Store) (p : TokenPair)
    (h : handleRefreshToken s now (some t) = .ok (s', p)) :
    ∃ u, jwtVerify t now = some t.username ∧
      findUserByUsername s t.username = some u ∧
      u.refreshTokens.contains t = true ∧
      s' = updateUserRefreshTokens { s with tokenCounter := s.tokenCounter + 2 }
             t.username
             (u.refreshTokens.filter (fun rt => rt != t) ++
               [mkRefresh t.username (s.tokenCounter + 1) now]) := by
  simp only [handleRefreshToken] at h
  cases hv : jwtVerify t now with
  | none => rw [hv] at h; exact absurd h (by simp)
  | some uname =>
    have huname : uname = t.username := jwtVerify_eq_some t now uname hv
    subst huname
    rw [hv] at h
    dsimp only at h
    cases hf : findUserByUsername s t.username with
    | none => rw [hf] at h; exact absurd h (by simp)
    | some u =>
      rw [hf] at h
      dsimp only at h
      cases hc : u.refreshTokens.contains t with
      | false => rw [hc] at h; exact absurd h (by simp)
      | true =>
        rw [hc] at h
        simp only [if_true] at h
        refine ⟨u, rfl, rfl, hc, ?_⟩
        have h2 := (Except.ok.inj h)
        have hs : s' = (Prod.mk s' p).1 := rfl
        rw [hs, ← h2]

/-- C1: refresh-token rotation is single-use — in a well-formed store, a
successful `rotate` of token `t` leaves a state in which presenting `t`
again (at any later instant) fails with `RefreshTokenError`. -/
theorem claim1_rotation_single_use (s s' : Store) (now now2 : Nat)
    (t : RTok) (p : TokenPair)
    (hwf : WFb s = true)
    (h : handleRefreshToken s now (some t) = .ok (s', p)) :
    ∃ e, handleRefreshToken s' now2 (some t) = .error e ∧
      e.name = .refreshTokenError := by
  obtain ⟨u, hv, hf, hc, hs'⟩ := handleRefreshToken_ok_inv s now t s' p h
  have hf' : s.users.find? (fun v => v.username == t.username) = some u := hf
  have hmemu : u ∈ s.users := List.mem_of_find?_eq_some hf'
  have hpu := List.find?_some (p := fun v : UserRec => v.username == t.username) hf'
  have hm_t : t ∈ u.refreshTokens := by
    have hc' : u.refreshTokens.elem t = true := hc
    exact List.elem_iff.mp hc'
  have hiat : t.iat < s.tokenCounter := by
    have hwf' : s.users.all
        (fun v => v.refreshTokens.all (fun tk => decide (tk.iat < s.tokenCounter))) =
        true := hwf
    have h1 := List.all_eq_true.mp hwf' u hmemu
    have h2 := List.all_eq_true.mp h1 t hm_t
    exact of_decide_eq_true h2
  subst hs'
  refine ⟨⟨.refreshTokenError, "Refresh token is invalid!"⟩, ?_, rfl⟩
  simp only [handleRefreshToken]
  cases hv2 : jwtVerify t now2 with
  | none => rfl
  | some w =>
    have hw : w = t.username := jwtVerify_eq_some t now2 w hv2
    subst hw
    dsimp only
    have hfind : findUserByUsername
        (updateUserRefreshTokens { s with tokenCounter := s.tokenCounter + 2 }
          t.username
          (u.refreshTokens.filter (fun rt => rt != t) ++
            [mkRefresh t.username (s.tokenCounter + 1) now]))
        t.username =
        some { u with refreshTokens :=
          u.refreshTokens.filter (fun rt => rt != t) ++
            [mkRefresh t.username (s.tokenCounter + 1) now] } := by
      unfold updateUserRefreshTokens findUserByUsername
      dsimp only
      rw [find?_username_map]
      · rw [hf']
        simp only [Option.map_some']
        rw [if_pos hpu]
      · intro v
        by_cases hb : (v.username == t.username) = true
        · rw [if_pos hb]
        · rw [if_neg hb]
    rw [hfind]
    dsimp only
    have hcon : (u.refreshTokens.filter (fun rt => rt != t) ++
        [mkRefresh t.username (s.tokenCounter + 1) now]).contains t = false := by
      rw [Bool.eq_false_iff]
      intro hct
      have hct' : (u.refreshTokens.filter (fun rt => rt != t) ++
          [mkRefresh t.username (s.tokenCounter + 1) now]).elem t = true := hct
      have hmem := List.elem_iff.mp hct'
      rcases List.mem_append.mp hmem with h1 | h2
      · have hbad := List.of_mem_filter h1
        simp at hbad
      · have heq := List.mem_singleton.mp h2
        have hiat2 : t.iat = s.tokenCounter + 1 := by rw [heq]; rfl
        omega
    rw [hcon]
    rfl

/-- C1 witness: rotating the fixture token once succeeds and produces
`rotatedStore`, from which a second presentation of the same token is
rejected with `RefreshTokenError`. -/
theorem claim1_witness :
    ∃ e, handleRefreshToken rotatedStore 0 (some aliceTok) = .error e ∧
      e.name = .refreshTokenError :=
  claim1_rotation_single_use baseStore rotatedStore 0 0 aliceTok rotatedPair
    (by rfl) (by rfl)

/-- C3 counterexample: sign-out presenting an expired refresh token does
not succeed with 200 — `jwt.verify` rejects the token and the fault is
forwarded, leaving the allowlist untouched. -/
theorem claim3_counterexample :
    signOut baseStore 700000 (some aliceTok) none none none =
      (baseStore, .err ⟨.jwtError, "jwt expired or malformed"⟩) := rfl

/-- C3 amended: sign-out succeeds with 200 when no refresh token is
presented, and when the presented token passes full `jwt.verify`
verification and its owner exists (that token is then revoked and the
transport cookies cleared); a token failing verification — expired or
forged — has its fault forwarded instead, with the store unchanged. -/
theorem claim3_signout_amended (s : Store) (now : Nat) :
    (signOut s now none none none none =
      (s, .ok { status := 200, message := "Successfully signed out!",
                cleared := ["rft", "act", "_csrf", "XSRF-TOKEN"] })) ∧
    (∀ t : RTok, jwtVerify t now = none →
      signOut s now (some t) none none none =
        (s, .err ⟨.jwtError, "jwt expired or malformed"⟩)) ∧
    (∀ t u, jwtVerify t now = some t.username →
      findUserByUsername s t.username = some u →
      (signOut s now (some t) none none none).2 =
        .ok { status := 200, message := "Successfully signed out!",
              cleared := ["act", "rft", "_csrf", "XSRF-TOKEN"] }) := by
  refine ⟨rfl, ?_, ?_⟩
  · intro t hv
    simp only [signOut, Option.some_orElse]
    rw [hv]
  · intro t u hv hf
    simp only [signOut, Option.some_orElse]
    rw [hv]
    dsimp only
    rw [hf]

/-- C3 witness: in the fixture store the no-token sign-out answers 200,
an unverifiable (expired) token's fault is forwarded, and a verified
token's sign-out answers 200. -/
theorem claim3_witness :
    (signOut baseStore 700000 none none none none =
      (baseStore, .ok { status := 200, message := "Successfully signed out!",
                        cleared := ["rft", "act", "_csrf", "XSRF-TOKEN"] })) ∧
    (signOut baseStore 700000 (some ⟨"aliceuser", 0, 10, true⟩) none none none =
      (baseStore, .err ⟨.jwtError, "jwt expired or malformed"⟩)) ∧
    ((signOut baseStore 0 (some aliceTok) none none none).2 =
      .ok { status := 200, message := "Successfully signed out!",
            cleared := ["act", "rft", "_csrf", "XSRF-TOKEN"] }) :=
  ⟨(claim3_signout_amended baseStore 700000).1,
   (claim3_signout_amended baseStore 700000).2.1 ⟨"aliceuser", 0, 10, true⟩ rfl,
   (claim3_signout_amended baseStore 0).2.2 aliceTok alice rfl rfl⟩

/-- C8: sign-out with a verified refresh token, whose owner is the
unique user bearing its username claim, removes exactly the allowlist
entries equal to the presented token — leaving every other token in
place and in order — and changes no other field of any user and no
other part of the store; the response is 200 with the transport cookies
cleared. -/
theorem claim8_signout_removes_exactly (s : Store) (now : Nat) (t : RTok)
    (u : UserRec)
    (hv : jwtVerify t now = some t.username)
    (hf : findUserByUsername s t.username = some u)
    (huniq : ∀ v ∈ s.users, v.username = t.username → v = u) :
    signOut s now (some t) none none none =
      ({ s with users := s.users.map (fun v =>
           if v.username == t.username then
             { v with refreshTokens := v.refreshTokens.filter (fun rt => rt != t) }
           else v) },
       .ok { status := 200, message := "Successfully signed out!",
             cleared := ["act", "rft", "_csrf", "XSRF-TOKEN"] }) := by
  simp only [signOut, Option.some_orElse]
  rw [hv]
  dsimp only
  rw [hf]
  dsimp only
  unfold updateUserRefreshTokens
  have hmaps : s.users.map (fun v =>
      if v.username == t.username then
        { v with refreshTokens := u.refreshTokens.filter (fun rt => rt != t) }
      else v) =
    s.users.map (fun v =>
      if v.username == t.username then
        { v with refreshTokens := v.refreshTokens.filter (fun rt => rt != t) }
      else v) := by
    apply List.map_congr_left
    intro v hvmem
    by_cases hb : (v.username == t.username) = true
    · rw [if_pos hb, if_pos hb]
      have hveq : v = u := huniq v hvmem (by simpa using hb)
      rw [hveq]
    · rw [if_neg hb, if_neg hb]
  rw [hmaps]

/-- C8 witness: in a store whose user holds two tokens, signing out with
the first removes exactly it and keeps the second. -/
theorem claim8_witness :
    signOut multiStore 0 (some aliceTok) none none none =
      ({ multiStore with users := multiStore.users.map (fun v =>
           if v.username == aliceTok.username then
             { v with refreshTokens :=
                 v.refreshTokens.filter (fun rt => rt != aliceTok) }
           else v) },
       .ok { status := 200, message := "Successfully signed out!",
             cleared := ["act", "rft", "_csrf", "XSRF-TOKEN"] }) :=
  claim8_signout_removes_exactly multiStore 0 aliceTok
    { alice with refreshTokens := [aliceTok, otherTok] }
    rfl rfl (by decide)

/-- C2 counterexample: presenting a wrong password for the fixture user
fails `BadRequestError` as claimed, but the persisted state is NOT
unchanged — the refresh token minted before the hash comparison has
already been appended, growing the allowlist from 1 to 2 entries. -/
theorem claim2_counterexample :
    ((signIn baseStore 0 "aliceuser" "password2").2 =
      .err ⟨.badRequestError, "Wrong username or password!"⟩) ∧
    ((findUserByUsername (signIn baseStore 0 "aliceuser" "password2").1
        "aliceuser").map (fun u => u.refreshTokens.length) = some 2) ∧
    ((findUserByUsername baseStore "aliceuser").map
        (fun u => u.refreshTokens.length) = some 1) :=
  ⟨rfl, rfl, rfl⟩

/-- C2 amended: on a password-hash mismatch local sign-in fails with
`BadRequestError`, but the token pair has already been minted and its
refresh token appended to the looked-up user's allowlist before the
comparison, so the allowlist gains that fresh token even on mismatch
(no other field changes); the 200 profile+tokens response is produced
only when the hash matches. -/
theorem claim2_signin_mismatch_appends (s : Store) (now : Nat)
    (id pw : String) (u : UserRec) (hp : String)
    (hval : (signInValidationMsgs id pw).isEmpty = true)
    (hf : findUserByUsernameOrEmail s id = some u)
    (hpw : u.password = some hp)
    (hne : hashString pw ≠ hp) :
    signIn s now id pw =
      (pushRefreshToken { s with tokenCounter := s.tokenCounter + 2 }
         u.username (mkRefresh u.username (s.tokenCounter + 1) now),
       .err ⟨.badRequestError, "Wrong username or password!"⟩) := by
  have hb : (hashString pw == hp) = false := by
    simpa using hne
  simp only [signIn]
  rw [if_pos hval, hf]
  dsimp only
  simp only [compareSync, hpw, hb]
  simp only [generateUserTokens]
  rfl

/-- C2 witness: the amended claim holds at the fixture user with a
concrete wrong password. -/
theorem claim2_witness :
    signIn baseStore 0 "aliceuser" "password2" =
      (pushRefreshToken { baseStore with tokenCounter := baseStore.tokenCounter + 2 }
         alice.username (mkRefresh alice.username (baseStore.tokenCounter + 1) 0),
       .err ⟨.badRequestError, "Wrong username or password!"⟩) :=
  claim2_signin_mismatch_appends baseStore 0 "aliceuser" "password2" alice
    (hashString "password1") rfl rfl rfl (by decide)

/-- C6: with well-formed input, sign-in with an identifier matching no
stored username or email fails `NotFoundError`; with a matched user but
a wrong password it fails `BadRequestError` whose message is the one
fixed generic string, independent of the user and of which part of the
credentials was wrong. -/
theorem claim6_signin_error_taxonomy (s : Store) (now : Nat) (id pw : String)
    (hval : (signInValidationMsgs id pw).isEmpty = true) :
    (findUserByUsernameOrEmail s id = none →
      signIn s now id pw =
        (s, .err ⟨.notFoundError, "User not found, please sign up first!"⟩)) ∧
    (∀ u hp, findUserByUsernameOrEmail s id = some u → u.password = some hp →
      hashString pw ≠ hp →
      (signIn s now id pw).2 =
        .err ⟨.badRequestError, "Wrong username or password!"⟩) := by
  constructor
  · intro hnone
    simp only [signIn]
    rw [if_pos hval, hnone]
  · intro u hp hf hpw hne
    have hb : (hashString pw == hp) = false := by
      simpa using hne
    simp only [signIn]
    rw [if_pos hval, hf]
    dsimp only
    simp only [compareSync, hpw, hb]
    rfl

/-- C6 witness: in the fixture store an unknown identifier yields
`NotFoundError` and a wrong password for the stored user yields the
generic `BadRequestError`. -/
theorem claim6_witness :
    (signIn baseStore 0 "ghostuser" "password2" =
      (baseStore, .err ⟨.notFoundError, "User not found, please sign up first!"⟩)) ∧
    ((signIn baseStore 0 "aliceuser" "password2").2 =
      .err ⟨.badRequestError, "Wrong username or password!"⟩) :=
  ⟨(claim6_signin_error_taxonomy baseStore 0 "ghostuser" "password2" rfl).1 rfl,
   (claim6_signin_error_taxonomy baseStore 0 "aliceuser" "password2" rfl).2
     alice (hashString "password1") rfl rfl (by decide)⟩

/-- C7 counterexample: a sign-up request whose username duplicates the
stored user `bobUser` but whose email duplicates `annUser` — found
first by the username-or-email lookup — is rejected reporting the EMAIL
collision, not the username collision the claim requires. -/
theorem claim7_counterexample :
    ((signUp dualStore 0 "John" "" "bbbuser" "shared@x.com" "secret77").2 =
      .err ⟨.alreadyExistsError, "Email is not available."⟩) ∧
    (dualStore.users.any (fun v => v.username == "bbbuser") = true) ∧
    ((.err ⟨ErrName.alreadyExistsError, "Email is not available."⟩ : Outcome) ≠
      .err ⟨ErrName.alreadyExistsError, "Username is not available."⟩) :=
  ⟨by decide, rfl, by decide⟩

/-- C7 amended: when the username-or-email lookup finds an existing
user, sign-up creates nothing (the store is unchanged) and fails
`AlreadyExistsError`, reporting the username collision when that found
user's username matches the request — in particular whenever the email
is fresh — and otherwise reporting the email collision (so a request
whose username collides with a later-stored user while its email
collides with an earlier-stored one reports the email). -/
theorem claim7_signup_collisions (s : Store) (now : Nat)
    (fn ln un em pw : String)
    (hval : (signUpValidationMsgs fn un em pw).isEmpty = true)
    (ex : UserRec)
    (hf : findUserByUsernamePairOrEmail s un em = some ex) :
    (signUp s now fn ln un em pw).1 = s ∧
    (ex.username = un →
      (signUp s now fn ln un em pw).2 =
        .err ⟨.alreadyExistsError, "Username is not available."⟩) ∧
    (ex.username ≠ un →
      (signUp s now fn ln un em pw).2 =
        .err ⟨.alreadyExistsError, "Email is not available."⟩) := by
  have hf' : s.users.find? (fun v => v.username == un || v.email == em) = some ex := hf
  have hor := List.find?_some
    (p := fun v : UserRec => v.username == un || v.email == em) hf'
  refine ⟨?_, ?_, ?_⟩
  · simp only [signUp]
    rw [if_pos hval, hf]
    dsimp only
    by_cases hb : (ex.username == un) = true
    · rw [if_pos hb]
    · rw [if_neg hb]
      by_cases hb2 : (ex.email == em) = true
      · rw [if_pos hb2]
      · rw [if_neg hb2]
  · intro heq
    have hb : (ex.username == un) = true := beq_iff_eq.mpr heq
    simp only [signUp]
    rw [if_pos hval, hf]
    dsimp only
    rw [if_pos hb]
  · intro hne
    have hb : (ex.username == un) = false := by simpa using hne
    have hb2 : (ex.email == em) = true := by
      simpa [hb] using hor
    simp only [signUp]
    rw [if_pos hval, hf]
    dsimp only
    rw [hb]
    simp only [Bool.false_eq_true, if_false]
    rw [if_pos hb2]

/-- C7 witness: in the cross-collision fixture, a duplicate username
with a fresh email reports the username collision; a duplicate email
with a fresh username reports the email collision and leaves the store
unchanged. -/
theorem claim7_witness :
    ((signUp dualStore 0 "John" "" "aaauser" "fresh@x.com" "secret77").2 =
      .err ⟨.alreadyExistsError, "Username is not available."⟩) ∧
    ((signUp dualStore 0 "John" "" "freshun" "shared@x.com" "secret77").2 =
      .err ⟨.alreadyExistsError, "Email is not available."⟩) ∧
    ((signUp dualStore 0 "John" "" "freshun" "shared@x.com" "secret77").1 =
      dualStore) :=
  ⟨(claim7_signup_collisions dualStore 0 "John" "" "aaauser" "fresh@x.com"
      "secret77" (by decide) annUser rfl).2.1 rfl,
   (claim7_signup_collisions dualStore 0 "John" "" "freshun" "shared@x.com"
      "secret77" (by decide) annUser rfl).2.2 (by decide),
   (claim7_signup_collisions dualStore 0 "John" "" "freshun" "shared@x.com"
      "secret77" (by decide) annUser rfl).1⟩

/-- To show a response exposes only profile keys it is enough to compute
its key list. -/
theorem profileKeysOnly_of_keys (r : Resp) (ks : List String)
    (hk : userKeys r = ks)
    (hsub : ks ⊆
      ["firstName", "lastName", "isUsernameSet", "username", "email",
       "isPasswordSet", "verified", "apiKey", "profileImageURL"])
    (h1 : "password" ∉ ks) (h2 : "refreshTokens" ∉ ks) :
    profileKeysOnly r := by
  unfold profileKeysOnly
  rw [hk]
  exact ⟨hsub, h1, h2⟩

/-- C9: every success response of sign-up, local sign-in, Google
sign-in and sync serializes the user as the fixed profile projection
only — no key outside the allowed profile set, and never the stored
password hash or the refresh-token allowlist. -/
theorem claim9_profile_projection_only :
    (∀ s now fn ln un em pw r,
      (signUp s now fn ln un em pw).2 = .ok r → profileKeysOnly r) ∧
    (∀ s now id pw r,
      (signIn s now id pw).2 = .ok r → profileKeysOnly r) ∧
    (∀ s now gp r,
      (googleSignIn s now gp).2 = .ok r → profileKeysOnly r) ∧
    (∀ s ru r, (sync s ru).2 = .ok r → profileKeysOnly r) := by
  refine ⟨?_, ?_, ?_, ?_⟩
  · intro s now fn ln un em pw r h
    simp only [signUp] at h
    split at h
    · split at h
      · split at h
        · exact absurd h (by simp)
        · split at h
          · exact absurd h (by simp)
          · exact absurd h (by simp)
      · have hr := Outcome.ok.inj h
        subst hr
        exact profileKeysOnly_of_keys _
          ["firstName", "lastName", "isUsernameSet", "username", "email",
           "isPasswordSet", "verified", "apiKey"]
          rfl (by decide) (by decide) (by decide)
    · exact absurd h (by simp)
  · intro s now id pw r h
    simp only [signIn] at h
    split at h
    · split at h
      · exact absurd h (by simp)
      · split at h
        · have hr := Outcome.ok.inj h
          subst hr
          exact profileKeysOnly_of_keys _
            ["firstName", "lastName", "username", "email", "apiKey"]
            rfl (by decide) (by decide) (by decide)
        · exact absurd h (by simp)
    · exact absurd h (by simp)
  · intro s now gp r h
    simp only [googleSignIn] at h
    split at h
    · exact absurd h (by simp)
    · rename_i p
      split at h
      · have hr := Outcome.ok.inj h
        subst hr
        cases hpic : p.picture with
        | none =>
            refine profileKeysOnly_of_keys _
              ["firstName", "lastName", "isUsernameSet", "username", "email",
               "isPasswordSet", "verified", "apiKey"] ?_ (by decide) (by decide)
              (by decide)
            unfold userKeys googleNewUserJson
            rw [hpic]
            rfl
        | some pic =>
            refine profileKeysOnly_of_keys _
              ["firstName", "lastName", "isUsernameSet", "username", "email",
               "isPasswordSet", "verified", "apiKey", "profileImageURL"] ?_
              (by decide) (by decide) (by decide)
            unfold userKeys googleNewUserJson
            rw [hpic]
            rfl
      · have hr := Outcome.ok.inj h
        subst hr
        cases hpic : p.picture with
        | none =>
            refine profileKeysOnly_of_keys _
              ["firstName", "lastName", "isUsernameSet", "username", "email",
               "isPasswordSet", "verified", "apiKey"] ?_ (by decide) (by decide)
              (by decide)
            unfold userKeys googleExistingUserJson
            rw [hpic]
            rfl
        | some pic =>
            refine profileKeysOnly_of_keys _
              ["firstName", "lastName", "isUsernameSet", "username", "email",
               "isPasswordSet", "verified", "apiKey", "profileImageURL"] ?_
              (by decide) (by decide) (by decide)
            unfold userKeys googleExistingUserJson
            rw [hpic]
            rfl
  · intro s ru r h
    simp only [sync] at h
    split at h
    · exact absurd h (by simp)
    · split at h
      · exact absurd h (by simp)
      · have hr := Outcome.ok.inj h
        subst hr
        exact profileKeysOnly_of_keys _
          ["firstName", "lastName", "isUsernameSet", "username", "email",
           "isPasswordSet", "verified", "apiKey"]
          rfl (by decide) (by decide) (by decide)

/-- C9 witness: the concrete sync response for the fixture user carries
only profile keys. -/
theorem claim9_witness :
    profileKeysOnly
      { status := 200, message := "Successfully synced!",
        user := some (syncUserJson "aliceuser" alice), todos := some [] } :=
  claim9_profile_projection_only.2.2.2 baseStore (some "aliceuser")
    { status := 200, message := "Successfully synced!",
      user := some (syncUserJson "aliceuser" alice), todos := some [] } rfl

/-- C10: a Google sign-in for a verified email with no existing user
persists a new user whose username is the Google subject id (`sub`) and
whose `isUsernameSet` flag is `true` — the very same flag value a local
sign-up persists for a user who chose their own username. -/
theorem claim10_google_username_is_sub (s : Store) (now : Nat) (p : GPayload)
    (hf : findUserByEmail s p.email = none) :
    ((googleSignIn s now (some p)).1.users =
      s.users ++
        [{ uid := s.nextUid, firstName := p.given_name,
           lastName := p.family_name, username := p.sub, email := p.email,
           isUsernameSet := true, isPasswordSet := false, password := none,
           verified := false, apiKey := createApiKey p.sub p.email,
           refreshTokens := [mkRefresh p.sub (s.tokenCounter + 1) now],
           profileImageURL := p.picture }]) ∧
    (∀ s2 now2 fn ln un em pw,
      (signUpValidationMsgs fn un em pw).isEmpty = true →
      findUserByUsernamePairOrEmail s2 un em = none →
      (signUp s2 now2 fn ln un em pw).1.users =
        s2.users ++
          [{ uid := s2.nextUid, firstName := fn, lastName := ln,
             username := un, email := em, isUsernameSet := true,
             isPasswordSet := true, password := some (hashString pw),
             verified := false, apiKey := createApiKey un em,
             refreshTokens := [mkRefresh un (s2.tokenCounter + 1) now2],
             profileImageURL := none }]) := by
  constructor
  · simp only [googleSignIn]
    rw [hf]
    rfl
  · intro s2 now2 fn ln un em pw hval hnone
    simp only [signUp]
    rw [if_pos hval, hnone]
    rfl

/-- C10 witness: the fixture Google payload creates a user named by its
subject id with `isUsernameSet = true`, and a fresh local sign-up also
persists `isUsernameSet = true`. -/
theorem claim10_witness :
    ((googleSignIn baseStore 0 (some gpayload)).1.users =
      baseStore.users ++
        [{ uid := 1, firstName := "Gname", lastName := "Gfam",
           username := "gsub1234", email := "guser@x.com",
           isUsernameSet := true, isPasswordSet := false, password := none,
           verified := false, apiKey := createApiKey "gsub1234" "guser@x.com",
           refreshTokens := [mkRefresh "gsub1234" 2 0],
           profileImageURL := some "pic.png" }]) ∧
    ((signUp baseStore 0 "John" "" "newuser1" "new@x.com" "secret77").1.users =
      baseStore.users ++
        [{ uid := 1, firstName := "John", lastName := "",
           username := "newuser1", email := "new@x.com",
           isUsernameSet := true, isPasswordSet := true,
           password := some (hashString "secret77"), verified := false,
           apiKey := createApiKey "newuser1" "new@x.com",
           refreshTokens := [mkRefresh "newuser1" 2 0],
           profileImageURL := none }]) :=
  ⟨(claim10_google_username_is_sub baseStore 0 gpayload rfl).1,
   (claim10_google_username_is_sub baseStore 0 gpayload rfl).2 baseStore 0
     "John" "" "newuser1" "new@x.com" "secret77" (by decide) rfl⟩
